import Mathlib

/-!
Shallow embedding of `src/tf-code-scanner.py`, a three-stage pipeline:
run the terrascan scanner, send its findings to a summarization service
(Bedrock), and persist a review artifact and, on failure, a scan artifact.

JSON-decoded Python values are modelled by the inductive `JVal`.  Python
operations that can raise (attribute access on a non-dict, `len` of an
unsized value, subscripting, comparison with `0`) return `Option`, with
`none` standing for an uncaught exception at that point.  The whole run is
the pure function `mainRun` from the scanner outcome, the service reply
and the bucket option to a `Trace` recording the exit code, whether the
summarization service was invoked, and the persisted artifacts.
-/

/-- A JSON value as decoded by Python's `json.loads`: `null`, booleans,
integers, strings, arrays and objects.  (The scanner's documents contain
no floats; numbers are modelled as integers.) -/
inductive JVal where
  | null : JVal
  | bool : Bool → JVal
  | num : Int → JVal
  | str : String → JVal
  | arr : List JVal → JVal
  | obj : List (String × JVal) → JVal

mutual

def JVal.decEq : (a b : JVal) → Decidable (a = b)
  | .null, .null => isTrue rfl
  | .bool a, .bool b =>
    if h : a = b then isTrue (by rw [h]) else isFalse (fun he => h (JVal.bool.inj he))
  | .num a, .num b =>
    if h : a = b then isTrue (by rw [h]) else isFalse (fun he => h (JVal.num.inj he))
  | .str a, .str b =>
    if h : a = b then isTrue (by rw [h]) else isFalse (fun he => h (JVal.str.inj he))
  | .arr a, .arr b =>
    match JVal.decEqList a b with
    | isTrue h => isTrue (by rw [h])
    | isFalse h => isFalse (fun he => h (JVal.arr.inj he))
  | .obj a, .obj b =>
    match JVal.decEqObj a b with
    | isTrue h => isTrue (by rw [h])
    | isFalse h => isFalse (fun he => h (JVal.obj.inj he))
  | .null, .bool _ => isFalse nofun
  | .null, .num _ => isFalse nofun
  | .null, .str _ => isFalse nofun
  | .null, .arr _ => isFalse nofun
  | .null, .obj _ => isFalse nofun
  | .bool _, .null => isFalse nofun
  | .bool _, .num _ => isFalse nofun
  | .bool _, .str _ => isFalse nofun
  | .bool _, .arr _ => isFalse nofun
  | .bool _, .obj _ => isFalse nofun
  | .num _, .null => isFalse nofun
  | .num _, .bool _ => isFalse nofun
  | .num _, .str _ => isFalse nofun
  | .num _, .arr _ => isFalse nofun
  | .num _, .obj _ => isFalse nofun
  | .str _, .null => isFalse nofun
  | .str _, .bool _ => isFalse nofun
  | .str _, .num _ => isFalse nofun
  | .str _, .arr _ => isFalse nofun
  | .str _, .obj _ => isFalse nofun
  | .arr _, .null => isFalse nofun
  | .arr _, .bool _ => isFalse nofun
  | .arr _, .num _ => isFalse nofun
  | .arr _, .str _ => isFalse nofun
  | .arr _, .obj _ => isFalse nofun
  | .obj _, .null => isFalse nofun
  | .obj _, .bool _ => isFalse nofun
  | .obj _, .num _ => isFalse nofun
  | .obj _, .str _ => isFalse nofun
  | .obj _, .arr _ => isFalse nofun

def JVal.decEqList : (a b : List JVal) → Decidable (a = b)
  | [], [] => isTrue rfl
  | x :: xs, y :: ys =>
    match JVal.decEq x y, JVal.decEqList xs ys with
    | isTrue h1, isTrue h2 => isTrue (by rw [h1, h2])
    | isFalse h1, _ => isFalse (fun he => h1 (List.cons.inj he).1)
    | _, isFalse h2 => isFalse (fun he => h2 (List.cons.inj he).2)
  | [], _ :: _ => isFalse nofun
  | _ :: _, [] => isFalse nofun

def JVal.decEqObj : (a b : List (String × JVal)) → Decidable (a = b)
  | [], [] => isTrue rfl
  | (k1, v1) :: xs, (k2, v2) :: ys =>
    if hk : k1 = k2 then
      match JVal.decEq v1 v2, JVal.decEqObj xs ys with
      | isTrue h1, isTrue h2 => isTrue (by rw [hk, h1, h2])
      | isFalse h1, _ => isFalse (fun he => h1 (congrArg Prod.snd (List.cons.inj he).1))
      | _, isFalse h2 => isFalse (fun he => h2 (List.cons.inj he).2)
    else isFalse (fun he => hk (congrArg Prod.fst (List.cons.inj he).1))
  | [], _ :: _ => isFalse nofun
  | _ :: _, [] => isFalse nofun

end

instance : DecidableEq JVal := JVal.decEq

/-- Python truthiness of a JSON-decoded value: `None`, `False`, `0`, `""`,
`[]` and the empty dict are falsy, everything else is truthy. -/
def JVal.truthy : JVal → Bool
  | .null => false
  | .bool b => b
  | .num n => n != 0
  | .str s => !s.isEmpty
  | .arr xs => !xs.isEmpty
  | .obj fs => !fs.isEmpty

/-- Truthiness of an optional value, where `none` models Python's `None`
(for example the result of `dict.get` on a missing key). -/
def truthyOpt : Option JVal → Bool
  | none => false
  | some v => v.truthy

/-- Models Python's `v.get(k, d)`: on a dict, look the key up (first match;
`json.loads` produces distinct keys) and fall back to the default; on any
other value `.get` does not exist and the call raises (`none`). -/
def dictGet (v : JVal) (k : String) (d : JVal) : Option JVal :=
  match v with
  | .obj fs => some ((fs.lookup k).getD d)
  | _ => none

/-- Models Python's `len(v)`: defined for strings, lists and dicts;
raises `TypeError` (`none`) on numbers, booleans and `None`. -/
def pyLen : JVal → Option Nat
  | .str s => some s.length
  | .arr xs => some xs.length
  | .obj fs => some fs.length
  | _ => none

/-- Models Python's slice `v[:10]`: defined for strings and lists;
raises (`none`) on anything else. -/
def pySlice10 : JVal → Option JVal
  | .str s => some (.str (s.take 10))
  | .arr xs => some (.arr (xs.take 10))
  | _ => none

/-- Models Python's subscript `v[k]` with a string key: dict lookup,
`KeyError` when absent; `TypeError` on non-dicts (`none` either way). -/
def pySubKey (v : JVal) (k : String) : Option JVal :=
  match v with
  | .obj fs => fs.lookup k
  | _ => none

/-- Models Python's subscript `v[i]` with a non-negative integer index:
list indexing (`IndexError` out of range), string indexing (yielding a
one-character string), and `KeyError`/`TypeError` on other values —
a JSON dict has string keys only, so `v[0]` on a dict raises. -/
def pySubIdx (v : JVal) (i : Nat) : Option JVal :=
  match v with
  | .arr xs => xs.get? i
  | .str s => (s.toList.get? i).map (fun c => .str (String.singleton c))
  | _ => none

/-- Substring test on strings, for Python's `k in s`. The empty pattern is
contained in every string. -/
def strContainsSubstr (s pat : String) : Bool :=
  pat.isEmpty || (s.splitOn pat).length > 1

/-- Models Python's membership test `k in v` for a string `k`: key
membership on dicts, element membership on lists, substring on strings;
`TypeError` (`none`) on numbers, booleans and `None`. -/
def pyContains (v : JVal) (k : String) : Option Bool :=
  match v with
  | .obj fs => some (fs.any (fun p => p.1 == k))
  | .arr xs => some (xs.any (fun x => decide (x = .str k)))
  | .str s => some (strContainsSubstr s k)
  | _ => none

/-- Models Python's comparison `v > 0`: numbers compare numerically and
booleans as the integers 0 and 1; any other value raises `TypeError`
(`none`). -/
def pyGtZero : JVal → Option Bool
  | .num n => some (decide (0 < n))
  | .bool b => some b
  | _ => none

/-- Decimal digits of a natural number, used to model Python's rendering
of integers inside `json.dumps`. -/
def natRepr (n : Nat) : String :=
  if h : n < 10 then String.singleton (Char.ofNat (48 + n))
  else natRepr (n / 10) ++ String.singleton (Char.ofNat (48 + n % 10))
decreasing_by
  exact Nat.div_lt_self (by omega) (by omega)

/-- Decimal rendering of an integer, with a leading minus sign when
negative. -/
def intRepr (n : Int) : String :=
  if n < 0 then "-" ++ natRepr n.natAbs else natRepr n.natAbs

mutual

/-- Models `json.dumps` on a JSON-decoded value: the serialized text of
the value.  Whitespace produced by `indent=2` and escaping inside string
literals are elided — the claims use the serialization only as a value
(what is persisted / returned), never parse it back. -/
def JVal.dumps : JVal → String
  | .null => "null"
  | .bool true => "true"
  | .bool false => "false"
  | .num n => intRepr n
  | .str s => "\"" ++ s ++ "\""
  | .arr xs => "[" ++ JVal.dumpsList xs ++ "]"
  | .obj fs => "\x7b" ++ JVal.dumpsObj fs ++ "\x7d"

def JVal.dumpsList : List JVal → String
  | [] => ""
  | [x] => JVal.dumps x
  | x :: y :: xs => JVal.dumps x ++ ", " ++ JVal.dumpsList (y :: xs)

def JVal.dumpsObj : List (String × JVal) → String
  | [] => ""
  | [(k, v)] => "\"" ++ k ++ "\": " ++ JVal.dumps v
  | (k, v) :: m :: fs => "\"" ++ k ++ "\": " ++ JVal.dumps v ++ ", " ++ JVal.dumpsObj (m :: fs)

end

/-- Builds the `condensed_findings` dict of `get_ai_review`
(src/tf-code-scanner.py lines 40-43): the scan summary together with the
(possibly truncated) violations, replaced by the literal marker string
when falsy (`violations if violations else "No violations found"`). -/
def condensedPayload (scan_summary violations : JVal) : JVal :=
  .obj [("scan_summary", scan_summary),
        ("violations", if violations.truthy then violations else .str "No violations found")]

/-- The condensation stage of `get_ai_review` (src/tf-code-scanner.py
lines 32-43): read `scan_summary` and `violations` from the top level of
the findings document with defaults `\x7b\x7d` and `[]`, truncate
violations to the first 10 when truthy and longer than 10
(`if violations and len(violations) > 10: violations = violations[:10]`),
and build the condensed payload.  `none` models an uncaught exception
(non-dict findings, or an unsized truthy violations value). -/
def condense (findings : JVal) : Option JVal :=
  match dictGet findings "scan_summary" (.obj []), dictGet findings "violations" (.arr []) with
  | some scan_summary, some violations =>
    if violations.truthy then
      match pyLen violations with
      | none => none
      | some l =>
        if 10 < l then (pySlice10 violations).map (condensedPayload scan_summary)
        else some (condensedPayload scan_summary violations)
    else some (condensedPayload scan_summary violations)
  | _, _ => none

/-- The fixed fallback summary used when the service call or the response
handling raises (src/tf-code-scanner.py line 76). -/
def summaryFallback : JVal := .str "AI review generation failed."

/-- The response-shape handling of `get_ai_review` (src/tf-code-scanner.py
lines 67-73): if the reply contains `content`, take
`response_body["content"][0]["text"]`; else if it contains `output`, take
`response_body["output"][0]["text"]`; else serialize the whole reply.
`none` models an exception raised inside the `try` block (`KeyError`,
`IndexError`, `TypeError`). -/
def extract_summary (body : JVal) : Option JVal :=
  match pyContains body "content" with
  | none => none
  | some true =>
    (pySubKey body "content").bind (fun c => (pySubIdx c 0).bind (fun b => pySubKey b "text"))
  | some false =>
    match pyContains body "output" with
    | none => none
    | some true =>
      (pySubKey body "output").bind (fun c => (pySubIdx c 0).bind (fun b => pySubKey b "text"))
    | some false => some (.str (JVal.dumps body))

/-- The summary value produced by the `try`/`except` of `get_ai_review`
(src/tf-code-scanner.py lines 57-76): `none` as the service reply models
`invoke_model` (or reading/parsing its body) raising, and any exception
inside the `try` block — including during response-shape handling — is
absorbed into the fixed fallback string. -/
def summaryFor (service : Option JVal) : JVal :=
  match service with
  | none => summaryFallback
  | some body => (extract_summary body).getD summaryFallback

/-- Models `get_ai_review` (src/tf-code-scanner.py lines 28-76) as a
function of the findings document and the service reply (`none` = the
invocation raised).  Condensation happens before the `try` block, so an
exception there (`none` overall) propagates out of the function and the
service is never invoked; otherwise the call always returns a summary
value. -/
def get_ai_review (findings : JVal) (service : Option JVal) : Option JVal :=
  (condense findings).map (fun _ => summaryFor service)

/-- The scan-error loop of `main` (src/tf-code-scanner.py lines 92-96):
walk `scan_errors` in order, and at the first entry whose `iac_type`
equals `"terraform"` take its `errMsg` (Python `None`, i.e. the inner
`none`, when absent) and stop.  The outer `none` models the
`AttributeError` raised by `error.get` on a non-dict entry. -/
def findTerraformError : List JVal → Option (Option JVal)
  | [] => some none
  | .obj fs :: rest =>
    match fs.lookup "iac_type" with
    | some (.str t) =>
      if t = "terraform" then some (fs.lookup "errMsg") else findTerraformError rest
    | _ => findTerraformError rest
  | _ :: _ => none

/-- The scan-error loop applied to the raw `scan_errors` value: Python's
`for` iterates lists elementwise, dicts over their keys and strings over
their characters (so the loop body's `error.get` raises on any key or
character reached), and raises `TypeError` on non-iterables; an empty
dict or string iterates zero times and leaves `terraform_error = None`. -/
def scanErrorsLoop : JVal → Option (Option JVal)
  | .arr errs => findTerraformError errs
  | .obj fs => if fs.isEmpty then some none else none
  | .str s => if s.isEmpty then some none else none
  | _ => none

/-- The first entry of a scan-error list whose `iac_type` is
`"terraform"`, skipping over entries of other types.  Used to state
claims about which entry the loop of `main` inspects. -/
def firstTerraformEntry : List JVal → Option JVal
  | [] => none
  | .obj fs :: rest =>
    match fs.lookup "iac_type" with
    | some (.str t) =>
      if t = "terraform" then some (.obj fs) else firstTerraformEntry rest
    | _ => firstTerraformEntry rest
  | _ :: _ => none

/-- The value `results` of `main` (src/tf-code-scanner.py line 86):
`scan_results.get("results", \x7b\x7d)`. -/
def resultsOf (doc : JVal) : Option JVal :=
  dictGet doc "results" (.obj [])

/-- The value `scan_errors` of `main` (src/tf-code-scanner.py line 87). -/
def scanErrorsOf (doc : JVal) : Option JVal :=
  (resultsOf doc).bind (fun r => dictGet r "scan_errors" (.arr []))

/-- The value `scan_summary` of `main` (src/tf-code-scanner.py line 88). -/
def scanSummaryOf (doc : JVal) : Option JVal :=
  (resultsOf doc).bind (fun r => dictGet r "scan_summary" (.obj []))

/-- The value `violated_policies` of `main` (src/tf-code-scanner.py
line 89): read from `scan_summary` with default `0`. -/
def violatedPoliciesOf (doc : JVal) : Option JVal :=
  (scanSummaryOf doc).bind (fun s => dictGet s "violated_policies" (.num 0))

/-- Outcome of the `subprocess.run` call of `run_terrascan`
(src/tf-code-scanner.py lines 19-23): either the executable could not be
launched (the call raised), or the scanner ran, returned some exit code,
and produced standard output that either parses as a JSON document or
does not (`json.loads` raises). -/
inductive ScannerOutcome where
  | launchFailure : ScannerOutcome
  | ran : Int → Option JVal → ScannerOutcome

/-- A persisted artifact: the review markdown (whose body is the summary
value) or the scan JSON (whose body is the serialized scan document). -/
inductive Artifact where
  | review : JVal → Artifact
  | scan : String → Artifact
deriving DecidableEq

/-- Observable outcome of a run: the process exit code, whether the
summarization service was invoked, and the artifacts persisted, in
order.  Uncaught exceptions are modelled as `none` at the `mainRun`
level, not as a `Trace`. -/
structure Trace where
  exitCode : Nat
  aiCalled : Bool
  artifacts : List Artifact
deriving DecidableEq

/-- Whether a trace persisted a scan artifact. -/
def Trace.persistsScan (t : Trace) : Bool :=
  t.artifacts.any (fun a => match a with | .scan _ => true | .review _ => false)

/-- Whether a trace persisted a review artifact. -/
def Trace.persistsReview (t : Trace) : Bool :=
  t.artifacts.any (fun a => match a with | .review _ => true | .scan _ => false)

/-- Models `run_terrascan` (src/tf-code-scanner.py lines 15-26): the
stdout captured by `subprocess.run` (with `check=False`) is parsed with
`json.loads` regardless of the scanner's exit code; a launch failure or a
parse failure is caught and turns into `sys.exit(1)` — modelled as an
`Except` carrying the terminal trace (exit 1, no service call, no
artifacts). -/
def run_terrascan (o : ScannerOutcome) : Except Trace JVal :=
  match o with
  | .launchFailure => .error ⟨1, false, []⟩
  | .ran _ none => .error ⟨1, false, []⟩
  | .ran _ (some doc) => .ok doc

/-- Models `main` after a successful scan parse (src/tf-code-scanner.py
lines 86-154).  Mirrors the source order: the `results`, `scan_errors`,
`scan_summary` and `violated_policies` lookups (lines 86-89) run first —
any of them raising is an uncaught exception (`none`); the scan-error
loop (lines 92-100) exits 1 before the service call when the terraform
error message is truthy; `get_ai_review` runs next (line 104); the review
artifact is always persisted (lines 107-124); finally `violated_policies
> 0` (line 134) decides between exit 1 with the scan artifact — the
serialized full original document (lines 127-128, 136-151) — and exit 0
with no scan artifact.  Persistence itself is assumed to succeed; the
`bucket` option only selects the destination and does not change the
trace. -/
def mainAfterScan (scan_results : JVal) (service : Option JVal) : Option Trace :=
  match scanErrorsOf scan_results, violatedPoliciesOf scan_results with
  | some scan_errors, some violated_policies =>
    match scanErrorsLoop scan_errors with
    | none => none
    | some terraform_error =>
      if truthyOpt terraform_error then some ⟨1, false, []⟩
      else
        match get_ai_review scan_results service with
        | none => none
        | some ai_summary =>
          match pyGtZero violated_policies with
          | none => none
          | some true =>
            some ⟨1, true, [.review ai_summary, .scan (JVal.dumps scan_results)]⟩
          | some false => some ⟨0, true, [.review ai_summary]⟩
  | _, _ => none

/-- Models a whole run of the program (src/tf-code-scanner.py lines
78-157): `run_terrascan` then the body of `main`. -/
def mainRun (scanner : ScannerOutcome) (service : Option JVal) : Option Trace :=
  match run_terrascan scanner with
  | .error t => some t
  | .ok scan_results => mainAfterScan scan_results service

/-- A clean scan document: no scan errors, zero violated policies, no
violations. -/
def docClean : JVal :=
  .obj [("results", .obj [("scan_errors", .arr []),
          ("scan_summary", .obj [("violated_policies", .num 0)])]),
        ("violations", .arr [])]

/-- A schema-conformant scan document with one violated policy, its scan
summary located at `results.scan_summary` and nowhere else. -/
def docSchemaPlain : JVal :=
  .obj [("results", .obj [("scan_errors", .arr []),
          ("scan_summary", .obj [("violated_policies", .num 1)])]),
        ("violations", .arr [])]

/-- A scan document whose only scan error is a terraform error with a
truthy message. -/
def docTerraformError : JVal :=
  .obj [("results", .obj [("scan_errors", .arr [
          .obj [("iac_type", .str "terraform"), ("errMsg", .str "no terraform files")]]),
          ("scan_summary", .obj [("violated_policies", .num 0)])]),
        ("violations", .arr [])]

/-- A scan document whose only scan error has `iac_type == "terraform"`
but carries no `errMsg` at all. -/
def docTerraformNoMsg : JVal :=
  .obj [("results", .obj [("scan_errors", .arr [.obj [("iac_type", .str "terraform")]]),
          ("scan_summary", .obj [("violated_policies", .num 0)])]),
        ("violations", .arr [])]

/-- A scan document whose scan errors hold a terraform entry with an
absent `errMsg`, preceded by a terraform entry with a truthy message. -/
def docTwoTerraformErrors : JVal :=
  .obj [("results", .obj [("scan_errors", .arr [
          .obj [("iac_type", .str "terraform"), ("errMsg", .str "no terraform files")],
          .obj [("iac_type", .str "terraform")]]),
          ("scan_summary", .obj [("violated_policies", .num 0)])]),
        ("violations", .arr [])]

/-- Twelve distinct violation records. -/
def twelveViolations : List JVal :=
  [.num 0, .num 1, .num 2, .num 3, .num 4, .num 5,
   .num 6, .num 7, .num 8, .num 9, .num 10, .num 11]

/-- A failing scan document with twelve violated policies and twelve
violations — more than the condensation bound of 10. -/
def docManyViolations : JVal :=
  .obj [("results", .obj [("scan_errors", .arr []),
          ("scan_summary", .obj [("violated_policies", .num 12)])]),
        ("violations", .arr twelveViolations)]

/-- The decimal rendering of a natural number is never the empty string. -/
theorem natRepr_length_pos (n : Nat) : 0 < (natRepr n).length := by
  rw [natRepr]
  split
  · simp
  · rw [String.length_append]
    simp

/-- The decimal rendering of an integer is never the empty string. -/
theorem intRepr_length_pos (n : Int) : 0 < (intRepr n).length := by
  rw [intRepr]
  split
  · rw [String.length_append]
    have := natRepr_length_pos n.natAbs
    omega
  · exact natRepr_length_pos n.natAbs

/-- Serializing any JSON value yields a non-empty string. -/
theorem dumps_length_pos (v : JVal) : 0 < (JVal.dumps v).length := by
  cases v with
  | null => decide
  | bool b => cases b <;> decide
  | num n => exact intRepr_length_pos n
  | str s =>
    show 0 < ("\"" ++ s ++ "\"").length
    simp [String.length_append]
    exact Or.inl (Or.inl (by decide))
  | arr xs =>
    show 0 < ("[" ++ JVal.dumpsList xs ++ "]").length
    simp [String.length_append]
    exact Or.inl (Or.inl (by decide))
  | obj fs =>
    show 0 < ("\x7b" ++ JVal.dumpsObj fs ++ "\x7d").length
    simp [String.length_append]
    exact Or.inl (Or.inl (by decide))

/-- Serializing any JSON value never yields the empty string. -/
theorem dumps_ne_empty (v : JVal) : JVal.dumps v ≠ "" := by
  intro h
  have hp := dumps_length_pos v
  rw [h] at hp
  simp at hp

/-- Key membership tested by `any` agrees with `List.lookup` succeeding. -/
theorem any_key_eq_lookup_isSome (k : String) :
    ∀ fs : List (String × JVal), (fs.any (fun p => p.1 == k)) = (List.lookup k fs).isSome
  | [] => rfl
  | (k1, v1) :: rest => by
    by_cases h : k = k1
    · subst h; simp [List.lookup]
    · have h1 : (k == k1) = false := by simp [h]
      have h2 : (k1 == k) = false := by simp [Ne.symm h]
      simp [List.lookup, h1, h2, any_key_eq_lookup_isSome k rest]

/-- Python's `k in d` on a dict succeeds exactly when the lookup does. -/
theorem pyContains_obj (fs : List (String × JVal)) (k : String) :
    pyContains (.obj fs) k = some ((List.lookup k fs).isSome) := by
  simp [pyContains, any_key_eq_lookup_isSome]

/-- Take-10 preserves emptiness. -/
theorem take10_isEmpty (vs : List JVal) : (vs.take 10).isEmpty = vs.isEmpty := by
  cases vs <;> rfl

/-- A successful `dict.get` forces the receiver to be a dict. -/
theorem obj_of_dictGet_isSome (v : JVal) (k : String) (d r : JVal)
    (h : dictGet v k d = some r) : ∃ fs, v = .obj fs := by
  cases v <;> first | exact ⟨_, rfl⟩ | simp [dictGet] at h

/-- Condensation on a dict whose (defaulted) violations value is a list:
the payload always exists and its violations entry is built from the
first 10 elements, with the empty list turned into the marker string by
`condensedPayload`. -/
theorem condense_arr_eq (fs : List (String × JVal)) (vs : List JVal)
    (hv2 : (List.lookup "violations" fs).getD (JVal.arr []) = JVal.arr vs) :
    condense (.obj fs) =
      some (condensedPayload ((List.lookup "scan_summary" fs).getD (.obj []))
        (.arr (vs.take 10))) := by
  by_cases he : vs.isEmpty
  · have hnil : vs = [] := by cases vs with | nil => rfl | cons a t => simp at he
    subst hnil
    simp [condense, hv2, dictGet, JVal.truthy]
  · by_cases hlen : 10 < vs.length
    · simp [condense, hv2, dictGet, JVal.truthy, he, pyLen, hlen, pySlice10]
    · have ht : vs.take 10 = vs := List.take_of_length_le (by omega)
      simp [condense, hv2, dictGet, JVal.truthy, he, pyLen, hlen, ht]

/-- The violations field of the condensed payload: the first 10 entries,
or the literal marker when the list is empty. -/
theorem condense_violations_field (fs : List (String × JVal)) (vs : List JVal)
    (hv2 : (List.lookup "violations" fs).getD (JVal.arr []) = JVal.arr vs) :
    ∃ c, condense (.obj fs) = some c ∧
      pySubKey c "violations" =
        some (if vs.isEmpty then .str "No violations found" else .arr (vs.take 10)) := by
  refine ⟨_, condense_arr_eq fs vs hv2, ?_⟩
  by_cases he : vs.isEmpty
  · simp [condensedPayload, pySubKey, List.lookup, JVal.truthy, take10_isEmpty, he]
  · simp [condensedPayload, pySubKey, List.lookup, JVal.truthy, take10_isEmpty, he]

/-- The trace of a validated run: the terraform-error check passed, the
service is invoked, the review artifact is persisted, and the exit code
and scan artifact are decided by `violated_policies > 0`. -/
theorem mainRun_validated
    (doc : JVal) (service : Option JVal) (ec : Int)
    (errs : List JVal) (te : Option JVal) (n : Int) (c : JVal)
    (herr : scanErrorsOf doc = some (.arr errs))
    (hte : findTerraformError errs = some te)
    (hpass : truthyOpt te = false)
    (hn : violatedPoliciesOf doc = some (.num n))
    (hcond : condense doc = some c) :
    mainRun (.ran ec (some doc)) service =
      some ⟨if 0 < n then 1 else 0, true,
        if 0 < n then [.review (summaryFor service), .scan (JVal.dumps doc)]
        else [.review (summaryFor service)]⟩ := by
  have hrev : get_ai_review doc service = some (summaryFor service) := by
    simp [get_ai_review, hcond]
  simp only [mainRun, run_terrascan, mainAfterScan, herr, hn, scanErrorsLoop, hte, hpass,
    hrev, pyGtZero]
  by_cases h : 0 < n <;> simp [h, hpass]

/-- The scan-error loop's result is the `errMsg` of the first entry whose
`iac_type` is `"terraform"`, whenever such an entry is reached. -/
theorem findTerraformError_of_first (errs : List JVal) :
    ∀ efs : List (String × JVal), firstTerraformEntry errs = some (.obj efs) →
      findTerraformError errs = some (List.lookup "errMsg" efs) := by
  induction errs with
  | nil => intro efs h; simp [firstTerraformEntry] at h
  | cons e rest ih =>
    intro efs h
    cases e with
    | obj gs =>
      rw [firstTerraformEntry] at h
      rw [findTerraformError]
      cases hl : List.lookup "iac_type" gs with
      | none => simp [hl] at h ⊢; exact ih efs h
      | some v =>
        cases v with
        | str t =>
          by_cases ht : t = "terraform"
          · simp [hl, ht] at h ⊢
            rw [h]
          · simp [hl, ht] at h ⊢; exact ih efs h
        | null => simp [hl] at h ⊢; exact ih efs h
        | bool b => simp [hl] at h ⊢; exact ih efs h
        | num m => simp [hl] at h ⊢; exact ih efs h
        | arr xs => simp [hl] at h ⊢; exact ih efs h
        | obj gs2 => simp [hl] at h ⊢; exact ih efs h
    | null => simp [firstTerraformEntry] at h
    | bool b => simp [firstTerraformEntry] at h
    | num m => simp [firstTerraformEntry] at h
    | str s => simp [firstTerraformEntry] at h
    | arr xs => simp [firstTerraformEntry] at h

/-- C1: for every scan document that passes validation (the scan-error
loop finds no truthy terraform error message) with an integer (or
absent, defaulting to 0) `results.scan_summary.violated_policies`, the
run exits 1 and persists a scan artifact if and only if the violation
count is positive; otherwise it exits 0 and persists no scan artifact;
the review artifact is persisted in both cases. -/
theorem validated_run_exit_code_and_artifacts
    (doc : JVal) (service : Option JVal) (ec : Int)
    (errs vs : List JVal) (te : Option JVal) (n : Int)
    (herr : scanErrorsOf doc = some (.arr errs))
    (hte : findTerraformError errs = some te)
    (hpass : truthyOpt te = false)
    (hn : violatedPoliciesOf doc = some (.num n))
    (hv : dictGet doc "violations" (.arr []) = some (.arr vs)) :
    ∃ t : Trace, mainRun (.ran ec (some doc)) service = some t ∧
      ((t.exitCode = 1 ∧ t.persistsScan = true) ↔ 0 < n) ∧
      ((t.exitCode = 0 ∧ t.persistsScan = false) ↔ ¬ 0 < n) ∧
      t.persistsReview = true := by
  obtain ⟨fs, rfl⟩ := obj_of_dictGet_isSome _ _ _ _ hv
  have hv2 : (List.lookup "violations" fs).getD (JVal.arr []) = JVal.arr vs := by
    simpa [dictGet] using hv
  refine ⟨_, mainRun_validated _ service ec errs te n _ herr hte hpass hn
    (condense_arr_eq fs vs hv2), ?_, ?_, ?_⟩ <;>
    by_cases h : 0 < n <;>
    simp [h, Trace.persistsScan, Trace.persistsReview]

/-- C1 witness: the clean document at violation count 0. -/
theorem validated_run_exit_code_and_artifacts_witness :
    ∃ t : Trace, mainRun (.ran 0 (some docClean)) none = some t ∧
      ((t.exitCode = 1 ∧ t.persistsScan = true) ↔ 0 < (0 : Int)) ∧
      ((t.exitCode = 0 ∧ t.persistsScan = false) ↔ ¬ 0 < (0 : Int)) ∧
      t.persistsReview = true :=
  validated_run_exit_code_and_artifacts docClean none 0 [] [] none 0
    (by decide) (by decide) (by decide) (by decide) (by decide)

/-- C2 counterexample: this document's scan errors contain an entry with
`iac_type == "terraform"` (and no `errMsg`), yet the run exits 0, invokes
the summarization service, and persists a review artifact — against the
claim's non-zero exit, no service call and no artifacts. -/
theorem terraform_entry_without_message_not_fatal_cex :
    scanErrorsOf docTerraformNoMsg = some (.arr [.obj [("iac_type", .str "terraform")]]) ∧
    pySubKey (.obj [("iac_type", .str "terraform")]) "iac_type" = some (.str "terraform") ∧
    mainRun (.ran 0 (some docTerraformNoMsg)) none =
      some ⟨0, true, [.review summaryFallback]⟩ := by
  decide

/-- C2 (amended): for every scan document whose scan-error loop finds a
truthy terraform `errMsg` (the first entry with `iac_type ==
"terraform"` carries one) and whose `scan_summary` lookup does not
raise, the run exits 1, never calls the summarization service, and
persists no artifact. -/
theorem truthy_terraform_error_aborts_run
    (doc : JVal) (service : Option JVal) (ec : Int)
    (errs : List JVal) (msg : JVal)
    (herr : scanErrorsOf doc = some (.arr errs))
    (hvp : (violatedPoliciesOf doc).isSome = true)
    (hte : findTerraformError errs = some (some msg))
    (htruthy : msg.truthy = true) :
    mainRun (.ran ec (some doc)) service = some ⟨1, false, []⟩ := by
  obtain ⟨vp, hvp2⟩ := Option.isSome_iff_exists.mp hvp
  simp [mainRun, run_terrascan, mainAfterScan, herr, hvp2, scanErrorsLoop, hte,
    truthyOpt, htruthy]

/-- C2 witness: the document with a truthy terraform error aborts. -/
theorem truthy_terraform_error_aborts_run_witness :
    mainRun (.ran 0 (some docTerraformError)) none = some ⟨1, false, []⟩ :=
  truthy_terraform_error_aborts_run docTerraformError none 0
    [.obj [("iac_type", .str "terraform"), ("errMsg", .str "no terraform files")]]
    (.str "no terraform files") (by decide) (by decide) (by decide) (by decide)

/-- C3: the condensed payload reads `scan_summary` at the top level of the
findings document (`findings.get("scan_summary", ...)` in
`get_ai_review`), so for a schema-conformant document — scan summary at
`results.scan_summary`, as `main` itself reads it — the payload carries
the empty default dict rather than the document's scan summary copied
verbatim. -/
theorem condensed_payload_misses_results_scan_summary :
    scanSummaryOf docSchemaPlain = some (.obj [("violated_policies", .num 1)]) ∧
    (condense docSchemaPlain).map (fun c => pySubKey c "scan_summary") =
      some (some (.obj [])) ∧
    (JVal.obj []) ≠ .obj [("violated_policies", .num 1)] := by
  decide

/-- C4: condensation of the violations sequence (present as a list, or
absent): more than 10 entries are truncated to the first 10 in their
original order, an empty or absent sequence becomes the literal marker
string `"No violations found"` rather than an empty sequence, and the
stage always produces a payload. -/
theorem condense_truncates_and_marks_empty
    (doc : JVal) (fs : List (String × JVal)) (vs : List JVal)
    (hdoc : doc = .obj fs)
    (hv : List.lookup "violations" fs = some (.arr vs) ∨
          (List.lookup "violations" fs = none ∧ vs = [])) :
    ∃ c, condense doc = some c ∧
      pySubKey c "violations" =
        some (if vs.isEmpty then .str "No violations found" else .arr (vs.take 10)) := by
  subst hdoc
  have hv2 : (List.lookup "violations" fs).getD (JVal.arr []) = JVal.arr vs := by
    rcases hv with h | ⟨h, h2⟩
    · simp [h]
    · simp [h, h2]
  exact condense_violations_field fs vs hv2

/-- C4 witness: twelve violations condense to the first ten, and an
absent violations field yields the marker. -/
theorem condense_truncates_and_marks_empty_witness :
    ∃ c, condense (.obj [("violations", .arr twelveViolations)]) = some c ∧
      pySubKey c "violations" =
        some (if twelveViolations.isEmpty then .str "No violations found"
              else .arr (twelveViolations.take 10)) :=
  condense_truncates_and_marks_empty (.obj [("violations", .arr twelveViolations)])
    [("violations", .arr twelveViolations)] twelveViolations rfl (Or.inl (by decide))

/-- C5: response normalization in priority order: a reply with a `content`
field whose first block holds text X yields X (whatever `output` holds);
otherwise a reply with an `output` field whose first item holds text Y
yields Y; otherwise the result is the full serialized reply, a non-empty
string, and this normalization does not fail. -/
theorem extract_summary_priority
    (fs cfs ofs : List (String × JVal)) (cblocks oblocks : List JVal) (X Y : String) :
    (List.lookup "content" fs = some (.arr (.obj cfs :: cblocks)) →
     List.lookup "text" cfs = some (.str X) →
     extract_summary (.obj fs) = some (.str X)) ∧
    (List.lookup "content" fs = none →
     List.lookup "output" fs = some (.arr (.obj ofs :: oblocks)) →
     List.lookup "text" ofs = some (.str Y) →
     extract_summary (.obj fs) = some (.str Y)) ∧
    (List.lookup "content" fs = none →
     List.lookup "output" fs = none →
     extract_summary (.obj fs) = some (.str (JVal.dumps (.obj fs))) ∧
     JVal.dumps (.obj fs) ≠ "") := by
  refine ⟨fun hc hx => ?_, fun hnc ho hy => ?_, fun hnc hno => ?_⟩
  · simp [extract_summary, pyContains_obj, hc, pySubKey, pySubIdx, hx]
  · simp [extract_summary, pyContains_obj, hnc, ho, pySubKey, pySubIdx, hy]
  · exact ⟨by simp [extract_summary, pyContains_obj, hnc, hno], dumps_ne_empty _⟩

/-- C5 witness: the three reply shapes at concrete inputs. -/
theorem extract_summary_priority_witness :
    extract_summary (.obj [("content", .arr [.obj [("text", .str "All clear")]])]) =
      some (.str "All clear") ∧
    extract_summary (.obj [("output", .arr [.obj [("text", .str "Summary")]])]) =
      some (.str "Summary") ∧
    extract_summary (.obj [("status", .num 200)]) =
      some (.str (JVal.dumps (.obj [("status", .num 200)]))) :=
  ⟨(extract_summary_priority [("content", .arr [.obj [("text", .str "All clear")]])]
      [("text", .str "All clear")] [] [] [] "All clear" "Y").1 (by decide) (by decide),
   (extract_summary_priority [("output", .arr [.obj [("text", .str "Summary")]])]
      [] [("text", .str "Summary")] [] [] "X" "Summary").2.1
      (by decide) (by decide) (by decide),
   ((extract_summary_priority [("status", .num 200)] [] [] [] [] "X" "Y").2.2
      (by decide) (by decide)).1⟩

/-- C6: a service-invocation failure is absorbed into the fixed fallback
summary `"AI review generation failed."`; the run is not aborted — it
persists the review artifact and reaches the pass/fail decision, whose
exit code is the same as with any reply and depends only on the
violation count. -/
theorem service_failure_nonfatal_fallback
    (doc : JVal) (service : Option JVal) (ec : Int)
    (errs vs : List JVal) (te : Option JVal) (n : Int)
    (herr : scanErrorsOf doc = some (.arr errs))
    (hte : findTerraformError errs = some te)
    (hpass : truthyOpt te = false)
    (hn : violatedPoliciesOf doc = some (.num n))
    (hv : dictGet doc "violations" (.arr []) = some (.arr vs)) :
    mainRun (.ran ec (some doc)) none =
      some ⟨if 0 < n then 1 else 0, true,
        if 0 < n then [.review summaryFallback, .scan (JVal.dumps doc)]
        else [.review summaryFallback]⟩ ∧
    (mainRun (.ran ec (some doc)) service).map Trace.exitCode =
      some (if 0 < n then 1 else 0) := by
  obtain ⟨fs, rfl⟩ := obj_of_dictGet_isSome _ _ _ _ hv
  have hv2 : (List.lookup "violations" fs).getD (JVal.arr []) = JVal.arr vs := by
    simpa [dictGet] using hv
  have hc := condense_arr_eq fs vs hv2
  constructor
  · have hm := mainRun_validated _ none ec errs te n _ herr hte hpass hn hc
    simpa [summaryFor] using hm
  · rw [mainRun_validated _ service ec errs te n _ herr hte hpass hn hc]
    by_cases h : 0 < n <;> simp [h]

/-- C6 witness: the clean document with a failed service call. -/
theorem service_failure_nonfatal_fallback_witness :
    mainRun (.ran 0 (some docClean)) none =
      some ⟨if 0 < (0 : Int) then 1 else 0, true,
        if 0 < (0 : Int) then [.review summaryFallback, .scan (JVal.dumps docClean)]
        else [.review summaryFallback]⟩ ∧
    (mainRun (.ran 0 (some docClean))
        (some (.obj [("content", .arr [.obj [("text", .str "All clear")]])]))).map
      Trace.exitCode = some (if 0 < (0 : Int) then 1 else 0) :=
  service_failure_nonfatal_fallback docClean
    (some (.obj [("content", .arr [.obj [("text", .str "All clear")]])])) 0 [] [] none 0
    (by decide) (by decide) (by decide) (by decide) (by decide)

/-- C7: the scanner invoker's result is independent of the scanner's own
exit code (captured stdout is parsed regardless, so a non-zero scanner
exit is never by itself a failure), and a launch failure or unparsable
output terminates the run with exit code 1 before any later stage: the
service is never invoked and no artifact is persisted. -/
theorem run_terrascan_ignores_exit_code_and_fatal :
    (∀ (ec ec2 : Int) (out : Option JVal),
      run_terrascan (.ran ec out) = run_terrascan (.ran ec2 out)) ∧
    (∀ service : Option JVal, mainRun .launchFailure service = some ⟨1, false, []⟩) ∧
    (∀ (ec : Int) (service : Option JVal),
      mainRun (.ran ec none) service = some ⟨1, false, []⟩) := by
  refine ⟨?_, ?_, ?_⟩
  · intro ec ec2 out; cases out <;> rfl
  · intro service; rfl
  · intro ec service; rfl

/-- C7 witness: concrete exit codes and failure modes. -/
theorem run_terrascan_ignores_exit_code_and_fatal_witness :
    run_terrascan (.ran 0 none) = run_terrascan (.ran 7 none) ∧
    mainRun .launchFailure none = some ⟨1, false, []⟩ ∧
    mainRun (.ran 5 none) none = some ⟨1, false, []⟩ :=
  ⟨run_terrascan_ignores_exit_code_and_fatal.1 0 7 none,
   run_terrascan_ignores_exit_code_and_fatal.2.1 none,
   run_terrascan_ignores_exit_code_and_fatal.2.2 5 none⟩

/-- C8: condensation never mutates the scan document — the embedding is
pure, condensation only reads it — and on a failing run the persisted
scan artifact is the serialization of the full original document, whose
violations list `vs` keeps every entry (here more than 10), while the
condensed request payload carried only the first 10. -/
theorem scan_artifact_serializes_full_document
    (doc : JVal) (service : Option JVal) (ec : Int)
    (errs vs : List JVal) (te : Option JVal) (n : Int)
    (herr : scanErrorsOf doc = some (.arr errs))
    (hte : findTerraformError errs = some te)
    (hpass : truthyOpt te = false)
    (hn : violatedPoliciesOf doc = some (.num n))
    (hpos : 0 < n)
    (hv : dictGet doc "violations" (.arr []) = some (.arr vs))
    (h10 : 10 < vs.length) :
    mainRun (.ran ec (some doc)) service =
      some ⟨1, true, [.review (summaryFor service), .scan (JVal.dumps doc)]⟩ ∧
    (∃ c, condense doc = some c ∧
      pySubKey c "violations" = some (.arr (vs.take 10))) := by
  obtain ⟨fs, rfl⟩ := obj_of_dictGet_isSome _ _ _ _ hv
  have hv2 : (List.lookup "violations" fs).getD (JVal.arr []) = JVal.arr vs := by
    simpa [dictGet] using hv
  have hne : vs.isEmpty = false := by
    cases vs with
    | nil => simp at h10
    | cons a t => rfl
  constructor
  · have hm := mainRun_validated _ service ec errs te n _ herr hte hpass hn
      (condense_arr_eq fs vs hv2)
    simpa [hpos] using hm
  · obtain ⟨c, hc, hfield⟩ := condense_violations_field fs vs hv2
    exact ⟨c, hc, by simpa [hne] using hfield⟩

/-- C8 witness: the failing document with twelve violations. -/
theorem scan_artifact_serializes_full_document_witness :
    mainRun (.ran 0 (some docManyViolations)) none =
      some ⟨1, true, [.review (summaryFor none), .scan (JVal.dumps docManyViolations)]⟩ ∧
    (∃ c, condense docManyViolations = some c ∧
      pySubKey c "violations" = some (.arr (twelveViolations.take 10))) :=
  scan_artifact_serializes_full_document docManyViolations none 0 [] twelveViolations
    none 12 (by decide) (by decide) (by decide) (by decide) (by decide) (by decide)
    (by decide)

/-- C9 counterexample: this document's scan errors contain an entry with
`iac_type == "terraform"` whose `errMsg` is absent, yet the run aborts —
exit 1, no service call, nothing persisted — because the loop stops at
the earlier terraform entry, whose message is truthy. -/
theorem earlier_truthy_terraform_error_still_aborts_cex :
    pySubKey (.obj [("iac_type", .str "terraform")]) "errMsg" = none ∧
    scanErrorsOf docTwoTerraformErrors = some (.arr [
      .obj [("iac_type", .str "terraform"), ("errMsg", .str "no terraform files")],
      .obj [("iac_type", .str "terraform")]]) ∧
    mainRun (.ran 0 (some docTwoTerraformErrors)) none = some ⟨1, false, []⟩ := by
  decide

/-- C9 (amended): when the first scan-error entry with `iac_type ==
"terraform"` has an absent, `None` or empty-string `errMsg`, the run does
not abort: the pipeline continues to the service call and persistence as
if no terraform error were present, decided by the violation count
alone — only a truthy `errMsg` triggers the fatal-configuration exit. -/
theorem falsy_terraform_error_continues
    (doc : JVal) (service : Option JVal) (ec : Int)
    (errs vs : List JVal) (efs : List (String × JVal)) (n : Int)
    (herr : scanErrorsOf doc = some (.arr errs))
    (hfirst : firstTerraformEntry errs = some (.obj efs))
    (hmsg : List.lookup "errMsg" efs = none ∨ List.lookup "errMsg" efs = some .null ∨
            List.lookup "errMsg" efs = some (.str ""))
    (hn : violatedPoliciesOf doc = some (.num n))
    (hv : dictGet doc "violations" (.arr []) = some (.arr vs)) :
    mainRun (.ran ec (some doc)) service =
      some ⟨if 0 < n then 1 else 0, true,
        if 0 < n then [.review (summaryFor service), .scan (JVal.dumps doc)]
        else [.review (summaryFor service)]⟩ := by
  obtain ⟨fs, rfl⟩ := obj_of_dictGet_isSome _ _ _ _ hv
  have hv2 : (List.lookup "violations" fs).getD (JVal.arr []) = JVal.arr vs := by
    simpa [dictGet] using hv
  have hte := findTerraformError_of_first errs efs hfirst
  have hpass : truthyOpt (List.lookup "errMsg" efs) = false := by
    rcases hmsg with h | h | h
    · simp [h, truthyOpt]
    · simp [h, truthyOpt, JVal.truthy]
    · simp [h, truthyOpt, JVal.truthy]
      decide
  exact mainRun_validated _ service ec errs _ n _ herr hte hpass hn
    (condense_arr_eq fs vs hv2)

/-- C9 witness: the document whose only scan error is a terraform entry
without an `errMsg` runs to completion. -/
theorem falsy_terraform_error_continues_witness :
    mainRun (.ran 0 (some docTerraformNoMsg)) none =
      some ⟨if 0 < (0 : Int) then 1 else 0, true,
        if 0 < (0 : Int) then [.review (summaryFor none), .scan (JVal.dumps docTerraformNoMsg)]
        else [.review (summaryFor none)]⟩ :=
  falsy_terraform_error_continues docTerraformNoMsg none 0
    [.obj [("iac_type", .str "terraform")]] [] [("iac_type", .str "terraform")] 0
    (by decide) (by decide) (Or.inl (by decide)) (by decide) (by decide)

/-- C10: a reply whose `content` (or, with `content` absent, `output`)
sequence is empty or whose first block lacks a `text` field makes the
summary the fixed fallback string `"AI review generation failed."`, not
the serialized reply: the raised `IndexError`/`KeyError` is absorbed by
the same handler as a service-invocation failure. -/
theorem unrecognized_block_shape_falls_back
    (fs bfs bfs2 : List (String × JVal)) (blocks blocks2 : List JVal) :
    (List.lookup "content" fs = some (.arr []) →
     summaryFor (some (.obj fs)) = summaryFallback) ∧
    (List.lookup "content" fs = some (.arr (.obj bfs :: blocks)) →
     List.lookup "text" bfs = none →
     summaryFor (some (.obj fs)) = summaryFallback) ∧
    (List.lookup "content" fs = none →
     List.lookup "output" fs = some (.arr []) →
     summaryFor (some (.obj fs)) = summaryFallback) ∧
    (List.lookup "content" fs = none →
     List.lookup "output" fs = some (.arr (.obj bfs2 :: blocks2)) →
     List.lookup "text" bfs2 = none →
     summaryFor (some (.obj fs)) = summaryFallback) := by
  refine ⟨fun hc => ?_, fun hc hx => ?_, fun hnc ho => ?_, fun hnc ho hx => ?_⟩
  · simp [summaryFor, extract_summary, pyContains_obj, hc, pySubKey, pySubIdx]
  · simp [summaryFor, extract_summary, pyContains_obj, hc, pySubKey, pySubIdx, hx]
  · simp [summaryFor, extract_summary, pyContains_obj, hnc, ho, pySubKey, pySubIdx]
  · simp [summaryFor, extract_summary, pyContains_obj, hnc, ho, pySubKey, pySubIdx, hx]

/-- C10 witness: an empty content sequence and a first block without text
both fall back. -/
theorem unrecognized_block_shape_falls_back_witness :
    summaryFor (some (.obj [("content", .arr [])])) = summaryFallback ∧
    summaryFor (some (.obj [("output", .arr [.obj [("kind", .str "x")]])])) =
      summaryFallback :=
  ⟨(unrecognized_block_shape_falls_back [("content", .arr [])] [] [] [] []).1 (by decide),
   (unrecognized_block_shape_falls_back [("output", .arr [.obj [("kind", .str "x")]])]
      [] [("kind", .str "x")] [] []).2.2.2 (by decide) (by decide) (by decide)⟩
